import Mathlib

/-!
Verification of the CosmiCam adaptive capture-and-retention subsystem.

This file gives a shallow embedding of the parts of the repository that the
specification talks about:
* `src/utils/disk_manager.py` (`DiskSpaceManager`): quota enforcement over a
  directory of capture artifacts;
* `src/camera/camera_settings.py` (`CameraSettings`): sun-phase computation and
  profile management;
* `src/config/config_manager.py` (`ConfigManager.update_config`): persisted
  configuration store with merge-then-overwrite updates;
* `src/camera/capture_service.py` (`ImageCaptureService.start`): the capture
  loop, one iteration at a time.

Python floats are modelled as rationals (`ℚ`); file sizes and times as `Nat`;
fallible operations return `Option`/`Bool` results.  The file system is a list
of file records carrying the observable attributes the code inspects (name,
creation time, size, symlink flag, whether the file sits in a subdirectory, and
whether `os.remove`/`os.path.getsize` would succeed on it).
-/

namespace CosmiCam

/-! ## File-system model for the disk manager -/

/-- One entry of the image directory tree.  `isLink` models
`os.path.islink`; `inSubdir` is true for files that `os.walk` reaches only by
descending into a subdirectory (so they are invisible to the top-level `glob`);
`deletable` models whether `os.path.getsize`/`os.remove` succeed on the file
(the code catches `FileNotFoundError`/`PermissionError` per file). -/
structure DirFile where
  name : String
  ctime : Nat
  size : Nat
  isLink : Bool
  inSubdir : Bool
  deletable : Bool
deriving Repr, DecidableEq

/-- The state of the image directory: the list order models the (arbitrary but
fixed) order in which the operating system enumerates directory entries, which
is the order `glob.glob` returns. -/
abbrev DirState := List DirFile

def imageGlobPre : String := "image_"

def imageGlobSuf : String := ".jpg"

/-- The glob pattern `image_*.jpg` of `_get_images_sorted_by_age`: `*` matches
any (possibly empty) character sequence, so a name matches exactly when it
starts with `image_` and ends with `.jpg` (for these two literal parts no
string can satisfy both through overlapping occurrences: the sixth-from-front
character would have to be both an underscore and a dot, so the conjunction is
exactly the glob).  Stated over character lists to keep it kernel-computable. -/
def matchesImagePattern (n : String) : Bool :=
  imageGlobPre.toList.isPrefixOf n.toList
    && imageGlobSuf.toList.reverse.isPrefixOf n.toList.reverse

/-- `DiskSpaceManager._get_directory_size`: `os.walk` over the whole tree
(top level and subdirectories), summing `os.path.getsize` of every file that is
not a symbolic link. -/
def directorySize (d : DirState) : Nat :=
  ((d.filter fun f => !f.isLink).map fun f => f.size).sum

/-- The files matched by `glob.glob(os.path.join(image_dir, "image_*.jpg"))`:
only entries directly in the image directory whose name matches the pattern. -/
def imageCandidates (d : DirState) : List DirFile :=
  d.filter fun f => !f.inSubdir && matchesImagePattern f.name

/-- Ordering key of `_get_images_sorted_by_age`: ascending creation time. -/
def ctimeLE (a b : DirFile) : Prop := a.ctime ≤ b.ctime

instance : DecidableRel ctimeLE := fun a b => Nat.decLe a.ctime b.ctime

instance : IsTotal DirFile ctimeLE := ⟨fun a b => Nat.le_total a.ctime b.ctime⟩

instance : IsTrans DirFile ctimeLE := ⟨fun _ _ _ h h2 => Nat.le_trans h h2⟩

/-- `DiskSpaceManager._get_images_sorted_by_age`: the glob result sorted
ascending by creation time.  Python's `list.sort` is a stable sort, so the
result is the unique stable ascending-by-ctime rearrangement of the glob
listing; we realise it with a stable insertion sort. -/
def imagesSortedByAge (d : DirState) : List DirFile :=
  List.insertionSort ctimeLE (imageCandidates d)

/-- The loop body of `DiskSpaceManager._remove_oldest_images`: walk the sorted
candidate list; before each candidate, stop if the running total already
reached `bytes_to_remove`; otherwise delete the file and add its size (a
per-file `FileNotFoundError`/`PermissionError` is logged and skipped, leaving
the file in place and the total unchanged). -/
def removeLoop (btr : ℚ) : DirState → List DirFile → Nat → DirState × Nat
  | d, [], acc => (d, acc)
  | d, f :: rest, acc =>
    if btr ≤ (acc : ℚ) then (d, acc)
    else if f.deletable then removeLoop btr (d.erase f) rest (acc + f.size)
    else removeLoop btr d rest acc

/-- `DiskSpaceManager._remove_oldest_images`: returns the directory after the
removals together with the number of bytes actually removed.  A non-positive
`bytes_to_remove` returns 0 immediately. -/
def removeOldestImages (d : DirState) (btr : ℚ) : DirState × Nat :=
  if btr ≤ 0 then (d, 0)
  else removeLoop btr d (imagesSortedByAge d) 0

/-- `max_bytes = self.max_disk_usage_gb * 1024 * 1024 * 1024`. -/
def maxBytesOf (gb : ℚ) : ℚ := gb * 1024 * 1024 * 1024

/-- `DiskSpaceManager.cleanup_if_needed`: no-op returning `false` when the
directory size is at or under the limit; otherwise removes oldest images with
`bytes_to_remove = dir_size - max_bytes * 0.9` and returns `true`. -/
def cleanup_if_needed (d : DirState) (gb : ℚ) : DirState × Bool :=
  if (directorySize d : ℚ) ≤ maxBytesOf gb then (d, false)
  else
    ((removeOldestImages d ((directorySize d : ℚ) - maxBytesOf gb * (9 / 10))).1, true)

/-! ### Specification-side descriptions of the removal pass -/

/-- Total size of a list of files. -/
def sumSizes (l : List DirFile) : Nat := (l.map fun f => f.size).sum

/-- Ghost trace of `removeLoop`: the files it deletes, in deletion order. -/
def removedList (btr : ℚ) : List DirFile → Nat → List DirFile
  | [], _ => []
  | f :: rest, acc =>
    if btr ≤ (acc : ℚ) then []
    else if f.deletable then f :: removedList btr rest (acc + f.size)
    else removedList btr rest acc

/-- `to_free` of an over-quota pass: `dir_size - max_bytes * 0.9`. -/
def toFree (d : DirState) (gb : ℚ) : ℚ :=
  (directorySize d : ℚ) - maxBytesOf gb * (9 / 10)

/-- The files an over-quota enforcement pass on `d` deletes, oldest first. -/
def evicted (d : DirState) (gb : ℚ) : List DirFile :=
  removedList (toFree d gb) (imagesSortedByAge d) 0

/-! ### Relating the removal loop to its trace -/

theorem removeLoop_snd (btr : ℚ) :
    ∀ (imgs : List DirFile) (d : DirState) (acc : Nat),
      (removeLoop btr d imgs acc).2 = acc + sumSizes (removedList btr imgs acc) := by
  intro imgs
  induction imgs with
  | nil => intro d acc; simp [removeLoop, removedList, sumSizes]
  | cons f rest ih =>
    intro d acc
    by_cases h : btr ≤ (acc : ℚ)
    · simp [removeLoop, removedList, h, sumSizes]
    · by_cases hd : f.deletable
      · simp only [removeLoop, removedList, if_neg h, if_pos hd]
        rw [ih]
        simp [sumSizes]
        ring
      · simp only [removeLoop, removedList, if_neg h, if_neg hd]
        exact ih d acc

theorem removeLoop_fst (btr : ℚ) :
    ∀ (imgs : List DirFile) (d : DirState) (acc : Nat),
      (removeLoop btr d imgs acc).1 = (removedList btr imgs acc).foldl List.erase d := by
  intro imgs
  induction imgs with
  | nil => intro d acc; simp [removeLoop, removedList]
  | cons f rest ih =>
    intro d acc
    by_cases h : btr ≤ (acc : ℚ)
    · simp [removeLoop, removedList, h]
    · by_cases hd : f.deletable
      · simp only [removeLoop, removedList, if_neg h, if_pos hd]
        rw [ih]
        simp
      · simp only [removeLoop, removedList, if_neg h, if_neg hd]
        exact ih d acc

theorem removedList_sublist (btr : ℚ) :
    ∀ (imgs : List DirFile) (acc : Nat),
      (removedList btr imgs acc).Sublist (imgs.filter fun f => f.deletable) := by
  intro imgs
  induction imgs with
  | nil => intro acc; simp [removedList]
  | cons f rest ih =>
    intro acc
    by_cases h : btr ≤ (acc : ℚ)
    · simp [removedList, h]
    · by_cases hd : f.deletable
      · simp only [removedList, if_neg h, if_pos hd, List.filter_cons, hd]
        exact List.Sublist.cons₂ f (ih (acc + f.size))
      · simp only [removedList, if_neg h, if_neg hd, List.filter_cons, hd]
        simp only [Bool.false_eq_true, if_false]
        exact ih acc

theorem removedList_stops (btr : ℚ) :
    ∀ (imgs : List DirFile) (acc : Nat),
      btr ≤ ((acc + sumSizes (removedList btr imgs acc) : Nat) : ℚ)
      ∨ removedList btr imgs acc = imgs.filter fun f => f.deletable := by
  intro imgs
  induction imgs with
  | nil => intro acc; right; simp [removedList]
  | cons f rest ih =>
    intro acc
    by_cases h : btr ≤ (acc : ℚ)
    · left
      simp only [removedList, if_pos h, sumSizes, List.map_nil, List.sum_nil, Nat.add_zero]
      exact h
    · by_cases hd : f.deletable
      · rcases ih (acc + f.size) with hle | hfull
        · left
          simp only [removedList, if_neg h, if_pos hd, sumSizes, List.map_cons, List.sum_cons]
          rw [← Nat.add_assoc]
          simpa [sumSizes] using hle
        · right
          simp only [removedList, if_neg h, if_pos hd, List.filter_cons, hd, if_pos]
          rw [hfull]
      · rcases ih acc with hle | hfull
        · left
          simpa [removedList, if_neg h, hd] using hle
        · right
          simp only [removedList, if_neg h, if_neg hd, List.filter_cons, hd]
          simp only [Bool.false_eq_true, if_false]
          exact hfull

theorem removedList_minimal (btr : ℚ) :
    ∀ (imgs : List DirFile) (acc : Nat),
      removedList btr imgs acc = [] ∨
      ((acc + sumSizes (removedList btr imgs acc).dropLast : Nat) : ℚ) < btr := by
  intro imgs
  induction imgs with
  | nil => intro acc; left; simp [removedList]
  | cons f rest ih =>
    intro acc
    by_cases h : btr ≤ (acc : ℚ)
    · left; simp [removedList, h]
    · by_cases hd : f.deletable
      · right
        simp only [removedList, if_neg h, if_pos hd]
        rcases ih (acc + f.size) with hnil | hlt
        · rw [hnil]
          simpa [sumSizes] using lt_of_not_le h
        · rcases heq : removedList btr rest (acc + f.size) with _ | ⟨g, gs⟩
          · simpa [sumSizes] using lt_of_not_le h
          · rw [heq] at hlt
            have : (f :: g :: gs).dropLast = f :: (g :: gs).dropLast := rfl
            rw [this]
            simp only [sumSizes, List.map_cons, List.sum_cons] at hlt ⊢
            have harr : acc + (f.size + ((g :: gs).dropLast.map fun f => f.size).sum)
                = acc + f.size + ((g :: gs).dropLast.map fun f => f.size).sum := by ring
            rw [harr]
            exact hlt
      · simpa [removedList, if_neg h, hd] using ih acc

/-! ### Concrete directory states used in the claims -/

/-- Oldest artifact of the three-artifact scenario. -/
def exT1 : DirFile := ⟨"image_0001.jpg", 1, 40, false, false, true⟩

/-- Middle artifact of the three-artifact scenario. -/
def exT2 : DirFile := ⟨"image_0002.jpg", 2, 40, false, false, true⟩

/-- Newest artifact of the three-artifact scenario. -/
def exT3 : DirFile := ⟨"image_0003.jpg", 3, 40, false, false, true⟩

/-- The three artifacts, listed by the OS in a scrambled, non-chronological
order. -/
def exThree : DirState := [exT2, exT1, exT3]

/-- A quota of 100 bytes, expressed in GB as the code's configuration is. -/
def exGB : ℚ := 100 / 1073741824

/-- A large file in the image directory that does not match `image_*.jpg`. -/
def exBig : DirFile := ⟨"video.mp4", 5, 150, false, false, true⟩

/-- An artifact-named file inside a subdirectory: counted by the recursive
size walk, invisible to the top-level glob. -/
def exSub : DirFile := ⟨"image_0009.jpg", 1, 50, false, true, true⟩

/-- A directory whose usage is entirely due to non-evictable files. -/
def exBlind : DirState := [exBig, exSub]

/-! ## Claim theorems about the disk manager -/

/-- C1: for every directory state, `cleanup_if_needed` is a no-op returning
`false` when total usage is at or under `max_bytes`; when usage is over, it
works with `to_free = dir_size - max_bytes * 0.9` and deletes the oldest
eligible artifacts one at a time, stopping as soon as the running reclaimed
total reaches `to_free` or no eligible artifacts remain, and returns `true`. -/
theorem cleanup_if_needed_spec (d : DirState) (gb : ℚ) :
    if (directorySize d : ℚ) ≤ maxBytesOf gb then
      cleanup_if_needed d gb = (d, false)
    else
      (cleanup_if_needed d gb).2 = true
      ∧ (cleanup_if_needed d gb).1 = (evicted d gb).foldl List.erase d
      ∧ (removeOldestImages d (toFree d gb)).2 = sumSizes (evicted d gb)
      ∧ (evicted d gb).Sublist ((imagesSortedByAge d).filter fun f => f.deletable)
      ∧ (toFree d gb ≤ ((sumSizes (evicted d gb) : Nat) : ℚ)
          ∨ evicted d gb = (imagesSortedByAge d).filter fun f => f.deletable)
      ∧ (evicted d gb = []
          ∨ ((sumSizes (evicted d gb).dropLast : Nat) : ℚ) < toFree d gb) := by
  by_cases h : (directorySize d : ℚ) ≤ maxBytesOf gb
  · rw [if_pos h]
    rw [cleanup_if_needed, if_pos h]
  · rw [if_neg h]
    have hds : (0 : ℚ) ≤ (directorySize d : ℚ) := Nat.cast_nonneg _
    have hover : maxBytesOf gb < (directorySize d : ℚ) := lt_of_not_le h
    have hpos : ¬ (toFree d gb ≤ 0) := by
      simp only [toFree]
      push_neg
      linarith
    have e1 : cleanup_if_needed d gb = ((removeOldestImages d (toFree d gb)).1, true) := by
      rw [cleanup_if_needed, if_neg h]
      rfl
    have hro : removeOldestImages d (toFree d gb)
        = removeLoop (toFree d gb) d (imagesSortedByAge d) 0 := by
      rw [removeOldestImages, if_neg hpos]
    refine ⟨by rw [e1], ?_, ?_, ?_, ?_, ?_⟩
    · rw [e1]
      simp only [hro, evicted]
      exact removeLoop_fst (toFree d gb) (imagesSortedByAge d) d 0
    · rw [hro, removeLoop_snd, evicted, Nat.zero_add]
    · exact removedList_sublist (toFree d gb) (imagesSortedByAge d) 0
    · simpa [evicted] using removedList_stops (toFree d gb) (imagesSortedByAge d) 0
    · simpa [evicted] using removedList_minimal (toFree d gb) (imagesSortedByAge d) 0

/-- C4: eviction candidates are exactly the glob matches of the artifact
pattern; they are considered in ascending creation-time order, produced
deterministically by a stable sort; with three artifacts of creation times
1 < 2 < 3 and a quota forcing removal of exactly one, the oldest is deleted
and the two newer ones remain. -/
theorem eviction_order_spec (d : DirState) :
    (imagesSortedByAge d).Perm (imageCandidates d)
    ∧ (imagesSortedByAge d).Pairwise ctimeLE
    ∧ imagesSortedByAge exThree = [exT1, exT2, exT3]
    ∧ cleanup_if_needed exThree exGB = ([exT2, exT3], true) := by
  refine ⟨List.perm_insertionSort ctimeLE (imageCandidates d),
    List.sorted_insertionSort ctimeLE (imageCandidates d), by decide, ?_⟩
  have hds : directorySize exThree = 120 := by decide
  have hmb : maxBytesOf exGB = 100 := by
    rw [maxBytesOf, exGB]
    norm_num
  have hcond : ¬ ((directorySize exThree : ℚ) ≤ maxBytesOf exGB) := by
    rw [hds, hmb]
    norm_num
  have htf : (directorySize exThree : ℚ) - maxBytesOf exGB * (9 / 10) = 30 := by
    rw [hds, hmb]
    norm_num
  rw [cleanup_if_needed, if_neg hcond, htf]
  have hguard : ¬ ((30 : ℚ) ≤ 0) := by norm_num
  rw [removeOldestImages, if_neg hguard]
  have hsorted : imagesSortedByAge exThree = [exT1, exT2, exT3] := by decide
  rw [hsorted]
  have s1 : removeLoop 30 exThree [exT1, exT2, exT3] 0
      = removeLoop 30 (exThree.erase exT1) [exT2, exT3] (0 + exT1.size) := by
    rw [removeLoop, if_neg (by norm_num : ¬ ((30 : ℚ) ≤ ((0 : Nat) : ℚ))),
      if_pos (by decide : exT1.deletable = true)]
  have s2 : removeLoop 30 (exThree.erase exT1) [exT2, exT3] (0 + exT1.size)
      = (exThree.erase exT1, 0 + exT1.size) := by
    rw [removeLoop, if_pos (by norm_num [exT1] : ((30 : ℚ) ≤ ((0 + exT1.size : Nat) : ℚ)))]
  rw [s1, s2]
  decide

/-- C10: the usage walk counts every regular non-symlink file in the whole
tree while eviction candidates are only top-level `image_*.jpg` files, so a
directory can be over quota while an enforcement pass reclaims zero bytes and
leaves usage over quota: `exBlind` holds 200 bytes against a 100-byte quota,
its only artifact-named file sits in a subdirectory, the candidate list is
empty, and the pass returns `true` having removed nothing. -/
theorem quota_blind_spot :
    directorySize exBlind = 200
    ∧ maxBytesOf exGB < (directorySize exBlind : ℚ)
    ∧ matchesImagePattern exSub.name = true
    ∧ imageCandidates exBlind = []
    ∧ cleanup_if_needed exBlind exGB = (exBlind, true)
    ∧ (removeOldestImages exBlind (toFree exBlind exGB)).2 = 0
    ∧ maxBytesOf exGB < (directorySize (cleanup_if_needed exBlind exGB).1 : ℚ) := by
  have hds : directorySize exBlind = 200 := by decide
  have hmb : maxBytesOf exGB = 100 := by
    rw [maxBytesOf, exGB]
    norm_num
  have hcond : ¬ ((directorySize exBlind : ℚ) ≤ maxBytesOf exGB) := by
    rw [hds, hmb]
    norm_num
  have hsorted : imagesSortedByAge exBlind = [] := by decide
  have htfpos : ¬ (toFree exBlind exGB ≤ 0) := by
    rw [toFree, hds, hmb]
    norm_num
  have hro : removeOldestImages exBlind (toFree exBlind exGB) = (exBlind, 0) := by
    rw [removeOldestImages, if_neg htfpos, hsorted, removeLoop]
  have hclean : cleanup_if_needed exBlind exGB = (exBlind, true) := by
    rw [cleanup_if_needed, if_neg hcond]
    have : (directorySize exBlind : ℚ) - maxBytesOf exGB * (9 / 10)
        = toFree exBlind exGB := rfl
    rw [this, hro]
  refine ⟨hds, ?_, by decide, by decide, hclean, ?_, ?_⟩
  · rw [hds, hmb]
    norm_num
  · rw [hro]
  · rw [hclean, hds, hmb]
    norm_num

/-! ## Configuration dictionaries (`ConfigManager`) -/

/-- A Python `dict` with string keys, as an insertion-ordered association
list. -/
abbrev PyDict (α : Type) := List (String × α)

/-- `d[k]` lookup / `k in d` membership. -/
def dictLookup {α : Type} : PyDict α → String → Option α
  | [], _ => none
  | (k0, v0) :: rest, k => if k0 = k then some v0 else dictLookup rest k

/-- `d[k] = v`: replace the value in place if the key exists, else append. -/
def dictInsert {α : Type} : PyDict α → String → α → PyDict α
  | [], k, v => [(k, v)]
  | (k0, v0) :: rest, k, v =>
    if k0 = k then (k, v) :: rest else (k0, v0) :: dictInsert rest k v

/-- `old.update(upd)`: merge `upd` into `old`, later keys overriding. -/
def dictUpdate {α : Type} (old upd : PyDict α) : PyDict α :=
  upd.foldl (fun acc kv => dictInsert acc kv.1 kv.2) old

/-- One profile: a mapping from parameter names to numeric values. -/
abbrev SettingsDict := PyDict ℚ

/-- The persisted configuration documents that the camera code touches.
`update_config` reads the current document, merges the new data into it, and
overwrites the file, returning `True`; any exception while writing is caught
and reported as `False` (the file then keeps its previous content in our
model).  `writeOk` stands for whether that write raises. -/
structure ConfigStore where
  camera_profiles : PyDict SettingsDict
  coordinates : SettingsDict
deriving Repr, DecidableEq

/-- `ConfigManager.update_config('camera_profiles', data)`. -/
def update_config_profiles (store : ConfigStore) (data : PyDict SettingsDict)
    (writeOk : Bool) : ConfigStore × Bool :=
  if writeOk then
    ({ store with camera_profiles := dictUpdate store.camera_profiles data }, true)
  else (store, false)

/-- `ConfigManager.update_config('coordinates', data)`. -/
def update_config_coordinates (store : ConfigStore) (data : SettingsDict)
    (writeOk : Bool) : ConfigStore × Bool :=
  if writeOk then
    ({ store with coordinates := dictUpdate store.coordinates data }, true)
  else (store, false)

/-! ## Camera settings manager (`CameraSettings`) -/

/-- The in-memory state of a `CameraSettings` instance. -/
structure CameraState where
  current_profile : String
  profiles : PyDict SettingsDict
  coordinates : SettingsDict
deriving Repr, DecidableEq

/-- The phase determination of `CameraSettings.get_sun_phase`, as a function
of the solar altitude in degrees (the altitude itself comes from `suncalc`
and the current time, which are inputs here). -/
def get_sun_phase (altitude : ℚ) : String :=
  if altitude ≤ -18 then "night"
  else if altitude ≤ -12 then "astronomical_twilight"
  else if altitude ≤ -6 then "nautical_twilight"
  else if altitude ≤ -0.833 then "civil_twilight"
  else "day"

/-- `CameraSettings.update_profile_from_sun_phase`, with the freshly computed
phase as input.  Returns the new state together with whether a
`Profile changed` event was logged (it is logged exactly when the phase has a
profile and differs from the previous active profile). -/
def update_profile_from_sun_phase (cs : CameraState) (phase : String) :
    CameraState × Bool :=
  if (dictLookup cs.profiles phase).isSome then
    ({ cs with current_profile := phase }, !(cs.current_profile == phase))
  else (cs, false)

/-- `CameraSettings.get_current_settings`: re-reads the profile mapping from
the config store (`fresh` is the re-read mapping), stores it, and indexes it
by the active profile name; `none` models the `KeyError` that
`self.profiles[self.current_profile]` raises when the name is absent. -/
def get_current_settings (cs : CameraState) (fresh : PyDict SettingsDict) :
    CameraState × Option SettingsDict :=
  ({ cs with profiles := fresh }, dictLookup fresh cs.current_profile)

/-- `CameraSettings.update_profile`: merges the settings into the named
profile (creating it if absent) in memory, then persists the whole mapping via
`config.update_config`; the Python function ends without a `return`, so the
caller receives `None` — the third component is that return value. -/
def update_profile (cs : CameraState) (store : ConfigStore) (name : String)
    (settings : SettingsDict) (writeOk : Bool) :
    CameraState × ConfigStore × Option Bool :=
  let merged :=
    match dictLookup cs.profiles name with
    | some old => dictInsert cs.profiles name (dictUpdate old settings)
    | none => dictInsert cs.profiles name settings
  let r := update_config_profiles store merged writeOk
  ({ cs with profiles := merged }, r.1, none)

/-- `CameraSettings.switch_profile`. -/
def switch_profile (cs : CameraState) (name : String) : CameraState × Bool :=
  if (dictLookup cs.profiles name).isSome then
    ({ cs with current_profile := name }, true)
  else (cs, false)

/-- `CameraSettings.update_coordinates`: replaces the in-memory coordinates,
persists them, and returns the store's boolean result (for valid document
names `update_config` catches its own exceptions, so the `except` branch
returning `False` is unreachable here). -/
def update_coordinates (cs : CameraState) (store : ConfigStore) (lat lon : ℚ)
    (writeOk : Bool) : CameraState × ConfigStore × Bool :=
  let cs2 := { cs with coordinates := [("latitude", lat), ("longitude", lon)] }
  let r := update_config_coordinates store cs2.coordinates writeOk
  (cs2, r.1, r.2)

/-! ## Capture service loop (`ImageCaptureService.start`) -/

/-- The state the capture loop carries across iterations. -/
structure ServiceState where
  running : Bool
  camera : CameraState
  dir : DirState
  capture_interval : Nat
deriving Repr, DecidableEq

/-- The environment of one loop iteration: the re-read system settings (with
defaults already applied by `.get`), the freshly re-read profile mapping, the
sun phase computed this cycle, whether the external `libcamera-still` command
succeeds, and the artifact it writes on success. -/
structure IterInput where
  capture_interval_setting : Nat
  max_disk_usage_gb : ℚ
  phase : String
  freshProfiles : PyDict SettingsDict
  subprocessOk : Bool
  artifact : DirFile
deriving Repr

/-- `CameraController.capture_image`: refreshes the profile from the sun
phase, re-reads the current settings (a missing active profile raises
`KeyError`), builds and runs the external command.  Every failure — the
subprocess's `CalledProcessError` or any other exception such as the
`KeyError` — is caught by the function's own handlers, logged, and surfaced
as `None`; no exception escapes to the caller. -/
def capture_image (cs : CameraState) (fresh : PyDict SettingsDict)
    (phase : String) (subprocessOk : Bool) (artifact : DirFile) :
    CameraState × Option DirFile :=
  let cs1 := (update_profile_from_sun_phase cs phase).1
  let r := get_current_settings cs1 fresh
  match r.2 with
  | none => (r.1, none)
  | some _ => if subprocessOk then (r.1, some artifact) else (r.1, none)

/-- One iteration of the `while self.running` body of
`ImageCaptureService.start`, returning the state after the iteration and the
number of seconds slept at its end.  The body re-applies the re-read capture
interval (clamped to at least 1 by `set_capture_interval`), refreshes the
profile, captures; on success the external tool has appended the artifact and
`cleanup_if_needed` runs; in every case the iteration ends with
`time.sleep(self.camera.capture_interval)`.  Because `capture_image` catches
its own exceptions, a failed capture flows through that same final sleep; the
`except` branch with its 5-second sleep is reached only by exceptions raised
outside `capture_image`, which the capture outcome never produces. -/
def loopIter (st : ServiceState) (inp : IterInput) : ServiceState × Nat :=
  let interval := max 1 inp.capture_interval_setting
  let cap := capture_image st.camera inp.freshProfiles inp.phase
    inp.subprocessOk inp.artifact
  match cap.2 with
  | some a =>
      ({ running := st.running, camera := cap.1,
         dir := (cleanup_if_needed (st.dir ++ [a]) inp.max_disk_usage_gb).1,
         capture_interval := interval }, interval)
  | none =>
      ({ running := st.running, camera := cap.1, dir := st.dir,
         capture_interval := interval }, interval)

/-- The loop itself: before each iteration the `while` condition checks
`self.running`; the listed inputs are the successive cycles' environments. -/
def loopRun (st : ServiceState) : List IterInput → ServiceState
  | [] => st
  | inp :: rest => if st.running then loopRun (loopIter st inp).1 rest else st

theorem capture_image_fail_none (cs : CameraState) (fresh : PyDict SettingsDict)
    (phase : String) (a : DirFile) :
    (capture_image cs fresh phase false a).2 = none := by
  cases h : dictLookup fresh ((update_profile_from_sun_phase cs phase).1).current_profile <;>
    simp [capture_image, get_current_settings, h]

theorem loopIter_running (st : ServiceState) (inp : IterInput) :
    (loopIter st inp).1.running = st.running := by
  cases h : (capture_image st.camera inp.freshProfiles inp.phase
      inp.subprocessOk inp.artifact).2 <;>
    simp [loopIter, h]

theorem loopRun_running (inps : List IterInput) :
    ∀ st : ServiceState, (loopRun st inps).running = st.running := by
  induction inps with
  | nil => intro st; rfl
  | cons inp rest ih =>
    intro st
    by_cases h : st.running = true
    · rw [loopRun, if_pos h, ih, loopIter_running]
    · rw [loopRun, if_neg h]

/-! ## Example states for the camera-settings claims -/

/-- A camera state whose mapping holds only the default profile. -/
def exCS : CameraState := ⟨"day", [("default", [])], []⟩

/-- A camera state whose active profile is `night`. -/
def exNight : CameraState :=
  ⟨"night", [("night", [("gain", 2)]), ("default", [])], []⟩

/-- A freshly re-read mapping from which an external edit removed `night`,
keeping only the guaranteed `default` entry. -/
def exFreshDefault : PyDict SettingsDict := [("default", [])]

/-- A store with one profile document and the default coordinates. -/
def exStore : ConfigStore :=
  ⟨[("default", [])], [("latitude", 32.7), ("longitude", -97.3)]⟩

/-- A partial settings update. -/
def exSettings : SettingsDict := [("gain", 2)]

/-- A camera state for the capture-loop scenario. -/
def exCam : CameraState := ⟨"day", [("day", []), ("default", [])], []⟩

/-- A running service with an empty artifact directory and the default
60-second interval. -/
def exSvc : ServiceState := ⟨true, exCam, [], 60⟩

/-- A loop-iteration environment whose external capture fails, with the
default 60-second interval re-read from the settings. -/
def exFailInp : IterInput :=
  ⟨60, 20, "day", [("day", []), ("default", [])], false, exT1⟩

/-! ## Claim theorems about the camera settings and the loop -/

/-- C2: the sun-phase mapping sends altitude `a` (degrees) to `night` iff
`a ≤ −18`, `astronomical_twilight` iff `−18 < a ≤ −12`, `nautical_twilight`
iff `−12 < a ≤ −6`, `civil_twilight` iff `−6 < a ≤ −0.833`, `day` iff
`a > −0.833`; each boundary value falls into the lower (more-night) bucket. -/
theorem sun_phase_thresholds (a : ℚ) :
    (get_sun_phase a = "night" ↔ a ≤ -18)
    ∧ (get_sun_phase a = "astronomical_twilight" ↔ (-18 < a ∧ a ≤ -12))
    ∧ (get_sun_phase a = "nautical_twilight" ↔ (-12 < a ∧ a ≤ -6))
    ∧ (get_sun_phase a = "civil_twilight" ↔ (-6 < a ∧ a ≤ -0.833))
    ∧ (get_sun_phase a = "day" ↔ -0.833 < a)
    ∧ get_sun_phase (-18) = "night"
    ∧ get_sun_phase (-12) = "astronomical_twilight"
    ∧ get_sun_phase (-6) = "nautical_twilight"
    ∧ get_sun_phase (-0.833) = "civil_twilight" := by
  have b1 : get_sun_phase (-18) = "night" := by
    rw [get_sun_phase, if_pos (by norm_num : (-18 : ℚ) ≤ -18)]
  have b2 : get_sun_phase (-12) = "astronomical_twilight" := by
    rw [get_sun_phase, if_neg (by norm_num : ¬ ((-12 : ℚ) ≤ -18)),
      if_pos (by norm_num : (-12 : ℚ) ≤ -12)]
  have b3 : get_sun_phase (-6) = "nautical_twilight" := by
    rw [get_sun_phase, if_neg (by norm_num : ¬ ((-6 : ℚ) ≤ -18)),
      if_neg (by norm_num : ¬ ((-6 : ℚ) ≤ -12)), if_pos (by norm_num : (-6 : ℚ) ≤ -6)]
  have b4 : get_sun_phase (-0.833) = "civil_twilight" := by
    rw [get_sun_phase, if_neg (by norm_num : ¬ ((-0.833 : ℚ) ≤ -18)),
      if_neg (by norm_num : ¬ ((-0.833 : ℚ) ≤ -12)),
      if_neg (by norm_num : ¬ ((-0.833 : ℚ) ≤ -6)),
      if_pos (by norm_num : (-0.833 : ℚ) ≤ -0.833)]
  by_cases h1 : a ≤ -18
  · have hv : get_sun_phase a = "night" := by rw [get_sun_phase, if_pos h1]
    refine ⟨iff_of_true hv h1, ?_, ?_, ?_, ?_, b1, b2, b3, b4⟩
    · exact iff_of_false (by rw [hv]; decide) (by rintro ⟨c1, c2⟩; linarith)
    · exact iff_of_false (by rw [hv]; decide) (by rintro ⟨c1, c2⟩; linarith)
    · exact iff_of_false (by rw [hv]; decide) (by rintro ⟨c1, c2⟩; linarith)
    · exact iff_of_false (by rw [hv]; decide) (by intro c; linarith)
  · have hg1 : -18 < a := lt_of_not_le h1
    by_cases h2 : a ≤ -12
    · have hv : get_sun_phase a = "astronomical_twilight" := by
        rw [get_sun_phase, if_neg h1, if_pos h2]
      refine ⟨?_, iff_of_true hv ⟨hg1, h2⟩, ?_, ?_, ?_, b1, b2, b3, b4⟩
      · exact iff_of_false (by rw [hv]; decide) (by intro c; linarith)
      · exact iff_of_false (by rw [hv]; decide) (by rintro ⟨c1, c2⟩; linarith)
      · exact iff_of_false (by rw [hv]; decide) (by rintro ⟨c1, c2⟩; linarith)
      · exact iff_of_false (by rw [hv]; decide) (by intro c; linarith)
    · have hg2 : -12 < a := lt_of_not_le h2
      by_cases h3 : a ≤ -6
      · have hv : get_sun_phase a = "nautical_twilight" := by
          rw [get_sun_phase, if_neg h1, if_neg h2, if_pos h3]
        refine ⟨?_, ?_, iff_of_true hv ⟨hg2, h3⟩, ?_, ?_, b1, b2, b3, b4⟩
        · exact iff_of_false (by rw [hv]; decide) (by intro c; linarith)
        · exact iff_of_false (by rw [hv]; decide) (by rintro ⟨c1, c2⟩; linarith)
        · exact iff_of_false (by rw [hv]; decide) (by rintro ⟨c1, c2⟩; linarith)
        · exact iff_of_false (by rw [hv]; decide) (by intro c; linarith)
      · have hg3 : -6 < a := lt_of_not_le h3
        by_cases h4 : a ≤ -0.833
        · have hv : get_sun_phase a = "civil_twilight" := by
            rw [get_sun_phase, if_neg h1, if_neg h2, if_neg h3, if_pos h4]
          refine ⟨?_, ?_, ?_, iff_of_true hv ⟨hg3, h4⟩, ?_, b1, b2, b3, b4⟩
          · exact iff_of_false (by rw [hv]; decide) (by intro c; linarith)
          · exact iff_of_false (by rw [hv]; decide) (by rintro ⟨c1, c2⟩; linarith)
          · exact iff_of_false (by rw [hv]; decide) (by rintro ⟨c1, c2⟩; linarith)
          · exact iff_of_false (by rw [hv]; decide) (by intro c; linarith)
        · have hg4 : -0.833 < a := lt_of_not_le h4
          have hv : get_sun_phase a = "day" := by
            rw [get_sun_phase, if_neg h1, if_neg h2, if_neg h3, if_neg h4]
          refine ⟨?_, ?_, ?_, ?_, iff_of_true hv hg4, b1, b2, b3, b4⟩
          · exact iff_of_false (by rw [hv]; decide) (by intro c; linarith)
          · exact iff_of_false (by rw [hv]; decide) (by rintro ⟨c1, c2⟩; linarith)
          · exact iff_of_false (by rw [hv]; decide) (by rintro ⟨c1, c2⟩; linarith)
          · exact iff_of_false (by rw [hv]; decide) (by rintro ⟨c1, c2⟩; linarith)

/-- C5 counterexample: a store-write failure during `update_profile` is NOT
reported to the caller: the Python function returns `None` whether or not the
persistence write succeeds, so the claim that every update operation reports
write failures as a boolean/error result fails on `update_profile`. -/
theorem update_profile_failure_unreported :
    (update_profile exCS exStore ("night") exSettings false).2.2 = none
    ∧ (update_profile exCS exStore ("night") exSettings false).2.2
      = (update_profile exCS exStore ("night") exSettings true).2.2 :=
  ⟨rfl, rfl⟩

/-- C5 (corrected): `update_coordinates` reports a store-write failure to the
caller as a boolean (`false` on failure, `true` on success), while
`update_profile` returns `None`, discarding the store's boolean result; in
both operations the in-memory state already merged by the manager is not
rolled back on a failed write (it equals the in-memory state of the
successful-write run), and the persisted store is left unchanged by the failed
write. -/
theorem update_ops_failure_semantics (cs : CameraState) (store : ConfigStore)
    (name : String) (settings : SettingsDict) (lat lon : ℚ) :
    (update_coordinates cs store lat lon false).2.2 = false
    ∧ (update_coordinates cs store lat lon true).2.2 = true
    ∧ (update_coordinates cs store lat lon false).1
      = { cs with coordinates := [("latitude", lat), ("longitude", lon)] }
    ∧ (update_coordinates cs store lat lon false).2.1 = store
    ∧ (update_profile cs store name settings false).2.2 = none
    ∧ (update_profile cs store name settings false).1
      = (update_profile cs store name settings true).1
    ∧ (update_profile cs store name settings false).2.1 = store :=
  ⟨rfl, rfl, rfl, rfl, rfl, rfl, rfl⟩

/-- C6: `update_profile_from_sun_phase` is idempotent: with the sun phase
unchanged (no elapsed time, no coordinate change), a second call yields the
same active profile as the first and logs no `Profile changed` event. -/
theorem refresh_idempotent (cs : CameraState) (phase : String) :
    (update_profile_from_sun_phase
        (update_profile_from_sun_phase cs phase).1 phase).1
      = (update_profile_from_sun_phase cs phase).1
    ∧ (update_profile_from_sun_phase
        (update_profile_from_sun_phase cs phase).1 phase).2 = false := by
  by_cases h : (dictLookup cs.profiles phase).isSome
  · simp [update_profile_from_sun_phase, h]
  · simp [update_profile_from_sun_phase, h]

/-- C7: `switch_profile` with a name present in the mapping sets it active
and returns `true` leaving the mapping unchanged; with an absent name it
returns `false` and leaves the whole state unchanged. -/
theorem switch_profile_spec (cs : CameraState) (name : String) :
    if (dictLookup cs.profiles name).isSome then
      switch_profile cs name = ({ cs with current_profile := name }, true)
      ∧ (switch_profile cs name).1.profiles = cs.profiles
    else
      switch_profile cs name = (cs, false) := by
  by_cases h : (dictLookup cs.profiles name).isSome
  · rw [if_pos h]
    constructor
    · rw [switch_profile, if_pos h]
    · rw [switch_profile, if_pos h]
  · rw [if_neg h, switch_profile, if_neg h]

/-- C8: a computed sun phase with no matching profile in the mapping leaves
the currently-active profile (indeed the whole state) unchanged and does not
fail; as every refresh cycle performs exactly this call, the invariant holds
across cycles. -/
theorem refresh_missing_phase (cs : CameraState) (phase : String)
    (h : dictLookup cs.profiles phase = none) :
    update_profile_from_sun_phase cs phase = (cs, false) := by
  simp [update_profile_from_sun_phase, h]

/-- Witness for C8 at a mapping holding only `default` and phase `night`. -/
theorem refresh_missing_phase_witness :
    dictLookup exCS.profiles ("night") = none
    ∧ update_profile_from_sun_phase exCS ("night") = (exCS, false) :=
  ⟨by decide, refresh_missing_phase exCS ("night") (by decide)⟩

/-- C9: `get_current_settings` installs the freshly re-read mapping, and its
result is exactly the indexing of that fresh mapping by the active name — in
particular, when an external edit removed the active profile (here `night`,
with only `default` surviving), the call yields the `KeyError` (`none`), not
the `default` profile nor the previous settings. -/
theorem get_current_settings_missing (cs : CameraState)
    (fresh : PyDict SettingsDict) :
    (get_current_settings cs fresh).1.profiles = fresh
    ∧ (get_current_settings cs fresh).2 = dictLookup fresh cs.current_profile
    ∧ (get_current_settings exNight exFreshDefault).2 = none
    ∧ dictLookup exFreshDefault ("default") = some [] :=
  ⟨rfl, rfl, by decide, by decide⟩

/-- C3 counterexample: an iteration whose external capture fails sleeps the
full normal capture interval (here the default 60 seconds) — not a fixed
fallback delay strictly shorter than the normal interval.  The loop does keep
running. -/
theorem capture_failure_sleeps_full_interval :
    exFailInp.subprocessOk = false
    ∧ (loopIter exSvc exFailInp).2 = 60
    ∧ max 1 exFailInp.capture_interval_setting = 60
    ∧ 60 ≤ (loopIter exSvc exFailInp).2
    ∧ (loopIter exSvc exFailInp).1.running = true :=
  ⟨rfl, rfl, rfl, by decide, rfl⟩

/-- C3 (corrected): when the external capture fails, `capture_image` logs the
failure and returns `None` without raising, so the loop does not exit, leaves
the artifact directory untouched, and sleeps the NORMAL capture interval
(`max 1 setting`, from `set_capture_interval`) before the next attempt; the
5-second fallback sleep of the `except` branch is reached only by exceptions
escaping the loop body, which a failed capture never produces.  Consequently
after any finite sequence of iterations — in particular any number of
consecutive capture failures — the loop is still running and performs the
next attempt. -/
theorem capture_failure_resilience (st : ServiceState) (inp : IterInput)
    (inps : List IterInput) (hfail : inp.subprocessOk = false) :
    (loopIter st inp).1.running = st.running
    ∧ (loopIter st inp).2 = max 1 inp.capture_interval_setting
    ∧ (loopIter st inp).1.dir = st.dir
    ∧ (loopRun st inps).running = st.running := by
  have hc : (capture_image st.camera inp.freshProfiles inp.phase
      inp.subprocessOk inp.artifact).2 = none := by
    rw [hfail]
    exact capture_image_fail_none st.camera inp.freshProfiles inp.phase inp.artifact
  refine ⟨loopIter_running st inp, ?_, ?_, loopRun_running inps st⟩
  · simp [loopIter, hc]
  · simp [loopIter, hc]

/-- Witness for C3's corrected statement: three consecutive failed captures
leave the service running with its directory intact, each sleeping the normal
60-second interval. -/
theorem capture_failure_resilience_witness :
    (loopIter exSvc exFailInp).1.running = exSvc.running
    ∧ (loopIter exSvc exFailInp).2 = max 1 exFailInp.capture_interval_setting
    ∧ (loopIter exSvc exFailInp).1.dir = exSvc.dir
    ∧ (loopRun exSvc [exFailInp, exFailInp, exFailInp]).running = exSvc.running :=
  capture_failure_resilience exSvc exFailInp [exFailInp, exFailInp, exFailInp] rfl

end CosmiCam
